import Mathlib

set_option maxHeartbeats 1000000

/-!
Shallow embedding of the peer-to-peer calling subsystem of the repository.

The repository contains two variants of the subsystem:
- `CallsV`: `src/components/Calls.tsx`, which signals over Supabase broadcast
  channels (`call-offer`, `call-answer`, `ice-candidate`, `hang-up`) and drives
  an `RTCPeerConnection` directly;
- `AuthV`: the variant embedded in `src/components/Auth.tsx`, which delegates
  signaling and negotiation to PeerJS (`peer.call`, `call.answer`,
  `call.close`) and keeps a `mediaError` banner state.

React `useState` fields become record fields; each action function or
broadcast handler becomes a pure function from the state (plus the
environment inputs it awaits: the result of `getUserMedia`, the description
produced by `createOffer`/`createAnswer`) to the new state together with the
list of externally visible messages or PeerJS effects it emits.
-/

/-- A Supabase user profile as carried in call payloads. -/
structure Profile where
  id : String
  username : String
  displayName : String
  verified : Bool
deriving DecidableEq, Repr

/-- The `type` field of a call: `'audio' | 'video'`. -/
inductive CallType
  | audio
  | video
deriving DecidableEq, Repr

/-- An SDP session description (opaque payload). -/
structure SessionDesc where
  sdp : String
deriving DecidableEq, Repr

/-- An ICE candidate (opaque payload). -/
structure IceCandidate where
  cand : String
deriving DecidableEq, Repr

/-- The kind of a media track. -/
inductive TrackKind
  | audio
  | video
deriving DecidableEq, Repr

/-- A local media track with its `enabled` flag. -/
structure MediaTrack where
  kind : TrackKind
  enabled : Bool
deriving DecidableEq, Repr

/-- A media stream: a list of tracks. -/
structure MediaStream where
  tracks : List MediaTrack
deriving DecidableEq, Repr

/-- `stream.getAudioTracks()`. -/
def MediaStream.getAudioTracks (s : MediaStream) : List MediaTrack :=
  s.tracks.filter (fun t => decide (t.kind = TrackKind.audio))

/-- `stream.getVideoTracks()`. -/
def MediaStream.getVideoTracks (s : MediaStream) : List MediaTrack :=
  s.tracks.filter (fun t => decide (t.kind = TrackKind.video))

/-- Flips the `enabled` flag of every track of the given kind, as both
variants of `toggleMute`/`toggleCamera` do with `forEach`. -/
def toggleTracks (stream : MediaStream) (k : TrackKind) : MediaStream :=
  { tracks := stream.tracks.map (fun t =>
      if t.kind = k then { t with enabled := !t.enabled } else t) }

/-- The browser `RTCPeerConnection` as observed by `Calls.tsx`: the local and
remote descriptions, the candidates handed to `addIceCandidate`, the tracks
attached by `addTrack`, and whether `close()` was called. The platform
accepts a candidate only once a remote description is present; a candidate
added earlier is rejected (`InvalidStateError`), recorded here in `failed`.
There is no buffer: a rejected candidate is never revisited. -/
structure RTCPeerConnection where
  localDesc : Option SessionDesc
  remoteDesc : Option SessionDesc
  applied : List IceCandidate
  failed : List IceCandidate
  senders : List MediaTrack
  closed : Bool
deriving DecidableEq, Repr

/-- `pc.setRemoteDescription(d)`. It does not touch the candidate lists. -/
def RTCPeerConnection.setRemoteDescription (pc : RTCPeerConnection)
    (d : SessionDesc) : RTCPeerConnection :=
  { pc with remoteDesc := some d }

/-- `pc.addIceCandidate(c)`: applied when a remote description is set,
otherwise rejected by the platform and lost. -/
def RTCPeerConnection.addIceCandidate (pc : RTCPeerConnection)
    (c : IceCandidate) : RTCPeerConnection :=
  if pc.remoteDesc.isSome then { pc with applied := pc.applied ++ [c] }
  else { pc with failed := pc.failed ++ [c] }

/-- The `CallPayload` type of `Calls.tsx`. The source field names `from` and
`to` are Lean keywords, rendered `fromUser`/`toUser`. -/
structure CallPayload where
  fromUser : Profile
  toUser : Option Profile
  offer : Option SessionDesc
  answer : Option SessionDesc
  candidate : Option IceCandidate
  type : Option CallType
deriving DecidableEq, Repr

/-- The `callInProgress` record `{ with, type, isCaller }`; the source field
name `with` is a Lean keyword, rendered `withUser`. -/
structure CallInProgress where
  withUser : Profile
  type : CallType
  isCaller : Bool
deriving DecidableEq, Repr

namespace CallsV

/-- The `useState` fields of the `Calls` component in `Calls.tsx`, plus the
`pcRef` peer connection ref. -/
structure State where
  user : Option Profile
  incomingCall : Option CallPayload
  callInProgress : Option CallInProgress
  localStream : Option MediaStream
  remoteStream : Option MediaStream
  isMuted : Bool
  isCamOff : Bool
  pc : Option RTCPeerConnection
deriving DecidableEq, Repr

/-- A message broadcast on the Supabase call channel. -/
inductive Broadcast
  | callOffer (payload : CallPayload)
  | callAnswer (payload : CallPayload)
  | iceCandidate (payload : CallPayload)
  | hangUp (payload : CallPayload)
deriving DecidableEq, Repr

/-- `getMedia(type)`. `mediaResult` is the environment response to
`getUserMedia`: `some stream` on success, `none` on rejection. On success it
stores the stream, resets `isCamOff` for video calls and clears `isMuted`;
on failure it only logs and returns null, changing no state. -/
def getMedia (s : State) (t : CallType) (mediaResult : Option MediaStream) :
    State × Option MediaStream :=
  match mediaResult with
  | some stream =>
      ({ s with localStream := some stream,
                isCamOff := if t = CallType.video then false else s.isCamOff,
                isMuted := false }, some stream)
  | none => (s, none)

/-- `cleanupCall()`: closes and drops the peer connection, stops and drops
both streams, clears the call records and resets both media flags. -/
def cleanupCall (s : State) : State :=
  { s with pc := none, localStream := none, remoteStream := none,
           callInProgress := none, incomingCall := none,
           isMuted := false, isCamOff := false }

/-- `setupPeerConnection(stream, targetUser)`: a fresh connection with the
local tracks attached. The `onicecandidate` emission is asynchronous and not
part of any claim; it is not modelled. -/
def setupPeerConnection (stream : MediaStream) : RTCPeerConnection :=
  { localDesc := none, remoteDesc := none, applied := [], failed := [],
    senders := stream.tracks, closed := false }

/-- `handleHangUp(broadcast)`: broadcasts a `hang-up` to the in-progress
peer only when `broadcast && callInProgress && user`, then runs
`cleanupCall`. -/
def handleHangUp (s : State) (broadcast : Bool) : State × List Broadcast :=
  let msgs :=
    match s.callInProgress, s.user with
    | some cip, some u =>
        if broadcast then
          [Broadcast.hangUp { fromUser := u, toUser := some cip.withUser,
                              offer := none, answer := none,
                              candidate := none, type := none }]
        else []
    | _, _ => []
  (cleanupCall s, msgs)

/-- `startCall(targetUser, type)`. Returns early when there is no user or a
call is already in progress (it does NOT check `incomingCall`), and also
when media acquisition fails. Otherwise it records the call, builds the
peer connection, sets the local description (`offerDesc` stands for the
`createOffer` result) and broadcasts the offer. -/
def startCall (s : State) (targetUser : Profile) (t : CallType)
    (mediaResult : Option MediaStream) (offerDesc : SessionDesc) :
    State × List Broadcast :=
  match s.user with
  | none => (s, [])
  | some u =>
    if s.callInProgress.isSome then (s, [])
    else
      match getMedia s t mediaResult with
      | (s1, none) => (s1, [])
      | (s1, some stream) =>
          let cip : CallInProgress := { withUser := targetUser, type := t, isCaller := true }
          let s2 := { s1 with callInProgress := some cip }
          let pc1 := { (setupPeerConnection stream) with localDesc := some offerDesc }
          ({ s2 with pc := some pc1 },
           [Broadcast.callOffer { fromUser := u, toUser := some targetUser,
                                  offer := some offerDesc, answer := none,
                                  candidate := none, type := some t }])

/-- `answerCall()`. Returns early without an incoming call or user. On a
failed media acquisition it runs `handleHangUp(true)` (the source comment
says: deny the call). Otherwise it records the call, builds the connection,
sets the remote description from the buffered offer and the local
description (`answerDesc` stands for the `createAnswer` result), broadcasts
the answer and clears `incomingCall`. -/
def answerCall (s : State) (mediaResult : Option MediaStream)
    (answerDesc : SessionDesc) : State × List Broadcast :=
  match s.incomingCall, s.user with
  | some ic, some u =>
      match getMedia s (ic.type.getD CallType.audio) mediaResult with
      | (s1, none) => handleHangUp s1 true
      | (s1, some stream) =>
          let cip : CallInProgress :=
            { withUser := ic.fromUser, type := ic.type.getD CallType.audio,
              isCaller := false }
          let s2 := { s1 with callInProgress := some cip }
          let pc1 := { (setupPeerConnection stream) with
                         remoteDesc := ic.offer, localDesc := some answerDesc }
          ({ s2 with pc := some pc1, incomingCall := none },
           [Broadcast.callAnswer { fromUser := u, toUser := some ic.fromUser,
                                   offer := none, answer := some answerDesc,
                                   candidate := none, type := none }])
  | _, _ => (s, [])

/-- `denyCall()`: broadcasts one `hang-up` to the incoming caller when an
incoming call and a user exist, and clears `incomingCall`; nothing else. -/
def denyCall (s : State) : State × List Broadcast :=
  let msgs :=
    match s.incomingCall, s.user with
    | some ic, some u =>
        [Broadcast.hangUp { fromUser := u, toUser := some ic.fromUser,
                            offer := none, answer := none,
                            candidate := none, type := none }]
    | _, _ => []
  ({ s with incomingCall := none }, msgs)

/-- The `call-offer` broadcast handler. The subscription exists only while a
user is set. Guard from the source:
`payload.to?.id === user.id && !callInProgress && !incomingCall`.
When the guard fails the payload is ignored with no reply. -/
def onCallOffer (s : State) (p : CallPayload) : State × List Broadcast :=
  match s.user with
  | none => (s, [])
  | some u =>
    match s.callInProgress, s.incomingCall with
    | none, none =>
        match p.toUser with
        | some tgt =>
            if tgt.id = u.id then ({ s with incomingCall := some p }, [])
            else (s, [])
        | none => (s, [])
    | _, _ => (s, [])

/-- The `call-answer` broadcast handler. Guard from the source:
`payload.to?.id === user.id && callInProgress && callInProgress.isCaller`;
the sender of the answer is never compared with the in-progress peer. On
success it sets the remote description on the current connection. -/
def onCallAnswer (s : State) (p : CallPayload) : State :=
  match s.user, s.callInProgress with
  | some u, some cip =>
      match p.toUser with
      | some tgt =>
          if tgt.id = u.id ∧ cip.isCaller = true then
            match p.answer with
            | some d => { s with pc := s.pc.map (fun pc => pc.setRemoteDescription d) }
            | none => s
          else s
      | none => s
  | _, _ => s

/-- The `ice-candidate` broadcast handler. Guard from the source:
`payload.to?.id === user.id && callInProgress`; the candidate is handed to
`pc.addIceCandidate` immediately, whether or not a remote description has
been set. There is no buffering anywhere in the component. -/
def onIceCandidate (s : State) (p : CallPayload) : State :=
  match s.user, s.callInProgress with
  | some u, some _ =>
      match p.toUser, p.candidate with
      | some tgt, some c =>
          if tgt.id = u.id then
            { s with pc := s.pc.map (fun pc => pc.addIceCandidate c) }
          else s
      | _, _ => s
  | _, _ => s

/-- The `hang-up` broadcast handler: when the sender matches the in-progress
peer it runs `handleHangUp(false)`; when the sender matches the incoming
caller it clears `incomingCall`; otherwise nothing happens. -/
def onHangUp (s : State) (p : CallPayload) : State × List Broadcast :=
  match s.user with
  | none => (s, [])
  | some _ =>
    let s1 :=
      match s.callInProgress with
      | some cip =>
          if p.fromUser.id = cip.withUser.id then (handleHangUp s false).1 else s
      | none => s
    let s2 :=
      match s.incomingCall with
      | some ic =>
          if p.fromUser.id = ic.fromUser.id then { s1 with incomingCall := none }
          else s1
      | none => s1
    (s2, [])

/-- `toggleMute()` in `Calls.tsx`: flips every audio track of the local
stream (a no-op on a null stream) and unconditionally flips `isMuted`.
There is no error state in this variant. -/
def toggleMute (s : State) : State :=
  { s with localStream := s.localStream.map (fun st => toggleTracks st TrackKind.audio),
           isMuted := !s.isMuted }

/-- `toggleCamera()` in `Calls.tsx`. -/
def toggleCamera (s : State) : State :=
  { s with localStream := s.localStream.map (fun st => toggleTracks st TrackKind.video),
           isCamOff := !s.isCamOff }

end CallsV

namespace AuthV

/-- A PeerJS `MediaConnection`, identified abstractly, with the metadata the
caller attached. -/
structure MediaConnection where
  connId : Nat
  metaFrom : Profile
  metaType : CallType
deriving DecidableEq, Repr

/-- The `IncomingCall` record of the Auth.tsx variant:
`{ from, type, peerCall }`. -/
structure IncomingCall where
  fromUser : Profile
  type : CallType
  peerCall : MediaConnection
deriving DecidableEq, Repr

/-- The discriminated `getUserMedia` failures the Auth.tsx `getMedia`
distinguishes by `err.name`. -/
inductive MediaErrorKind
  | notFound
  | notAllowed
  | other
deriving DecidableEq, Repr

/-- Externally visible PeerJS operations performed by the component. -/
inductive PeerEffect
  | callPlaced (targetId : String) (stream : Option MediaStream)
      (metaFrom : Profile) (metaType : CallType)
  | callAnswered (call : MediaConnection) (stream : Option MediaStream)
  | callClosed (call : MediaConnection)
deriving DecidableEq, Repr

/-- The `useState` fields of the `Calls` component in `Auth.tsx`, plus the
`activeCallRef` and whether `peerRef.current` is a live Peer. -/
structure State where
  user : Option Profile
  incomingCall : Option IncomingCall
  callInProgress : Option CallInProgress
  localStream : Option MediaStream
  remoteStream : Option MediaStream
  isMuted : Bool
  isCamOff : Bool
  mediaError : Option String
  activeCall : Option MediaConnection
  peerOpen : Bool
deriving DecidableEq, Repr

/-- The banner text chosen by the Auth.tsx `getMedia` catch branch. -/
def mediaErrorMessage (t : CallType) (e : MediaErrorKind) : String :=
  match e with
  | MediaErrorKind.notFound => "No microphone or camera found."
  | MediaErrorKind.notAllowed =>
      if t = CallType.video then "Microphone and/or Camera access denied."
      else "Microphone access denied."
  | MediaErrorKind.other => "Error accessing media devices."

/-- `getMedia(type)` in Auth.tsx. It first clears `mediaError`; on success it
stores the stream and resets the flags; on failure it records the banner
text, drops the stream, and forces `isMuted` (and `isCamOff` for video)
before returning null so the call proceeds without a stream. -/
def getMedia (s : State) (t : CallType)
    (mediaResult : Sum MediaStream MediaErrorKind) :
    State × Option MediaStream :=
  let s0 := { s with mediaError := none }
  match mediaResult with
  | Sum.inl stream =>
      ({ s0 with localStream := some stream,
                 isCamOff := if t = CallType.video then false else s0.isCamOff,
                 isMuted := false }, some stream)
  | Sum.inr e =>
      ({ s0 with mediaError := some (mediaErrorMessage t e),
                 localStream := none, isMuted := true,
                 isCamOff := if t = CallType.video then true else s0.isCamOff },
       none)

/-- `cleanupCall()` in Auth.tsx: closes and drops the active PeerJS call,
stops and drops both streams, clears the call records, the flags and the
error banner. -/
def cleanupCall (s : State) : State :=
  { s with activeCall := none, localStream := none, remoteStream := none,
           callInProgress := none, incomingCall := none,
           isMuted := false, isCamOff := false, mediaError := none }

/-- `handleHangUp()` in Auth.tsx: just `cleanupCall`; PeerJS notifies the
other side through the closed connection. -/
def handleHangUp (s : State) : State :=
  cleanupCall s

/-- `startCall(targetUser, type)` in Auth.tsx. Returns early when there is
no user, a call is already in progress (it does NOT check `incomingCall`),
or the Peer is not live. It then acquires media — and proceeds even when
that returns null — records the call and places the PeerJS call with the
(possibly null) stream. -/
def startCall (s : State) (targetUser : Profile) (t : CallType)
    (mediaResult : Sum MediaStream MediaErrorKind) (newConnId : Nat) :
    State × List PeerEffect :=
  match s.user with
  | none => (s, [])
  | some u =>
    if s.callInProgress.isSome || !s.peerOpen then (s, [])
    else
      let r := getMedia s t mediaResult
      let cip : CallInProgress := { withUser := targetUser, type := t, isCaller := true }
      let conn : MediaConnection := { connId := newConnId, metaFrom := u, metaType := t }
      let s2 := { r.1 with callInProgress := some cip, activeCall := some conn }
      (s2, [PeerEffect.callPlaced targetUser.id r.2 u t])

/-- `answerCall()` in Auth.tsx. Returns early without an incoming call or
user. It acquires media — and proceeds even when that returns null —
records the call, answers the pending PeerJS call with the (possibly null)
stream and clears `incomingCall`. It never denies. -/
def answerCall (s : State) (mediaResult : Sum MediaStream MediaErrorKind) :
    State × List PeerEffect :=
  match s.incomingCall, s.user with
  | some ic, some _ =>
      let r := getMedia s ic.type mediaResult
      let cip : CallInProgress :=
        { withUser := ic.fromUser, type := ic.type, isCaller := false }
      let s2 := { r.1 with callInProgress := some cip,
                           activeCall := some ic.peerCall,
                           incomingCall := none }
      (s2, [PeerEffect.callAnswered ic.peerCall r.2])
  | _, _ => (s, [])

/-- `denyCall()` in Auth.tsx: closes the pending PeerJS connection when an
incoming call exists, and clears `incomingCall`; nothing else. -/
def denyCall (s : State) : State × List PeerEffect :=
  let effs :=
    match s.incomingCall with
    | some ic => [PeerEffect.callClosed ic.peerCall]
    | none => []
  ({ s with incomingCall := none }, effs)

/-- The `peer.on(call)` handler in Auth.tsx: while busy (a call in progress
or an incoming call already pending) the new call is closed immediately;
otherwise it becomes the pending incoming call. The handler only exists
while a user is set. -/
def onPeerCall (s : State) (call : MediaConnection) : State × List PeerEffect :=
  match s.user with
  | none => (s, [])
  | some _ =>
    if s.callInProgress.isSome || s.incomingCall.isSome then
      (s, [PeerEffect.callClosed call])
    else
      let ic : IncomingCall :=
        { fromUser := call.metaFrom, type := call.metaType, peerCall := call }
      ({ s with incomingCall := some ic }, [])

/-- `toggleMute()` in Auth.tsx: when the local stream has audio tracks it
flips each of them and flips `isMuted`; otherwise it only sets the error
banner, leaving `isMuted` and the stream untouched. -/
def toggleMute (s : State) : State :=
  let audioTracks := (s.localStream.map MediaStream.getAudioTracks).getD []
  if audioTracks.length > 0 then
    { s with localStream := s.localStream.map (fun st => toggleTracks st TrackKind.audio),
             isMuted := !s.isMuted }
  else
    { s with mediaError := some "No microphone track available." }

/-- `toggleCamera()` in Auth.tsx, symmetric to `toggleMute`. -/
def toggleCamera (s : State) : State :=
  let videoTracks := (s.localStream.map MediaStream.getVideoTracks).getD []
  if videoTracks.length > 0 then
    { s with localStream := s.localStream.map (fun st => toggleTracks st TrackKind.video),
             isCamOff := !s.isCamOff }
  else
    { s with mediaError := some "No camera track available." }

end AuthV

/-! Concrete fixtures used by counterexamples and witnesses. -/

def alice : Profile :=
  { id := "alice", username := "alice", displayName := "Alice", verified := false }

def bob : Profile :=
  { id := "bob", username := "bob", displayName := "Bob", verified := false }

def carol : Profile :=
  { id := "carol", username := "carol", displayName := "Carol", verified := true }

def dave : Profile :=
  { id := "dave", username := "dave", displayName := "Dave", verified := false }

def micTrack : MediaTrack := { kind := TrackKind.audio, enabled := true }

def micStream : MediaStream := { tracks := [micTrack] }

def emptyStream : MediaStream := { tracks := [] }

def offerX : SessionDesc := { sdp := "offer-x" }

def offerC : SessionDesc := { sdp := "offer-carol" }

def answerX : SessionDesc := { sdp := "answer-x" }

def candX : IceCandidate := { cand := "cand-x" }

/-- An inbound offer payload from Carol addressed to Alice. -/
def offerFromCarol : CallPayload :=
  { fromUser := carol, toUser := some alice, offer := some offerC,
    answer := none, candidate := none, type := some CallType.audio }

/-- An inbound offer payload from Bob addressed to Alice. -/
def offerFromBob : CallPayload :=
  { fromUser := bob, toUser := some alice, offer := some offerX,
    answer := none, candidate := none, type := some CallType.audio }

/-- An answer payload from Carol addressed to Alice. -/
def answerFromCarol : CallPayload :=
  { fromUser := carol, toUser := some alice, offer := none,
    answer := some answerX, candidate := none, type := none }

/-- An answer payload from Bob addressed to Alice. -/
def answerFromBob : CallPayload :=
  { fromUser := bob, toUser := some alice, offer := none,
    answer := some answerX, candidate := none, type := none }

/-- A candidate payload from Bob addressed to Alice. -/
def candFromBob : CallPayload :=
  { fromUser := bob, toUser := some alice, offer := none,
    answer := none, candidate := some candX, type := none }

/-- A hang-up payload from Dave addressed to Alice. -/
def hangupFromDave : CallPayload :=
  { fromUser := dave, toUser := some alice, offer := none,
    answer := none, candidate := none, type := none }

/-- An in-progress outgoing call with Bob. -/
def cipBob : CallInProgress :=
  { withUser := bob, type := CallType.audio, isCaller := true }

/-- Alice idle, logged in, no call activity. -/
def idleAlice : CallsV.State :=
  { user := some alice, incomingCall := none, callInProgress := none,
    localStream := none, remoteStream := none, isMuted := false,
    isCamOff := false, pc := none }

/-- Alice with an incoming call from Carol ringing. -/
def ringingIncoming : CallsV.State :=
  { idleAlice with incomingCall := some offerFromCarol }

/-- Alice ringing Bob: the state right after a successful `startCall`. -/
def outgoingRinging : CallsV.State :=
  (CallsV.startCall idleAlice bob CallType.audio (some micStream) offerX).1

/-- Alice in a call with Bob while the offer from Carol is still pending. -/
def busyBoth : CallsV.State :=
  { idleAlice with callInProgress := some cipBob,
                   incomingCall := some offerFromCarol }

/-- Alice in a call with Bob with a local stream holding no audio track. -/
def noAudioInCall : CallsV.State :=
  { idleAlice with localStream := some emptyStream,
                   callInProgress := some cipBob }

def connFromCarol : AuthV.MediaConnection :=
  { connId := 2, metaFrom := carol, metaType := CallType.audio }

def connFromBob : AuthV.MediaConnection :=
  { connId := 1, metaFrom := bob, metaType := CallType.audio }

def icCarol : AuthV.IncomingCall :=
  { fromUser := carol, type := CallType.audio, peerCall := connFromCarol }

/-- Alice idle in the Auth.tsx variant, Peer live. -/
def authIdle : AuthV.State :=
  { user := some alice, incomingCall := none, callInProgress := none,
    localStream := none, remoteStream := none, isMuted := false,
    isCamOff := false, mediaError := none, activeCall := none, peerOpen := true }

/-- Alice with the PeerJS call from Carol ringing. -/
def authRingingIncoming : AuthV.State :=
  { authIdle with incomingCall := some icCarol }

/-- Auth.tsx state with a local stream holding no audio track. -/
def authNoAudio : AuthV.State :=
  { authIdle with localStream := some emptyStream }

/-- Auth.tsx state with a local stream holding an audio track. -/
def authWithAudio : AuthV.State :=
  { authIdle with localStream := some micStream }

/-! Claim theorems. -/

/-- C1 (counterexample): with an incoming call from Carol still ringing and
no call in progress, `startCall` toward Bob is NOT rejected: it sends the
offer and records the outgoing call while the incoming session stays
pending, so two non-Idle sessions coexist — refuting the claim that such a
`startCall` is rejected outright, sends no offer and changes no state. -/
theorem C1_counterexample :
    (CallsV.startCall ringingIncoming bob CallType.audio (some micStream) offerX).1.incomingCall
        = some offerFromCarol ∧
    (CallsV.startCall ringingIncoming bob CallType.audio (some micStream) offerX).1.callInProgress
        = some cipBob ∧
    (CallsV.startCall ringingIncoming bob CallType.audio (some micStream) offerX).2 ≠ [] := by
  decide

/-- C1 (amended): `startCall` is rejected outright only when a call is
already in progress; while merely an incoming call is ringing, a
`startCall` with successful media acquisition proceeds — it records the
outgoing session, leaves the pending incoming session in place and
broadcasts the offer — so two non-Idle sessions can coexist. -/
theorem C1_amended (s : CallsV.State) (tgt : Profile) (t : CallType)
    (mr : Option MediaStream) (off : SessionDesc) :
    (s.callInProgress.isSome = true → CallsV.startCall s tgt t mr off = (s, [])) ∧
    (∀ u stream, s.user = some u → s.callInProgress = none → mr = some stream →
      (CallsV.startCall s tgt t mr off).1.callInProgress =
        some ({ withUser := tgt, type := t, isCaller := true }) ∧
      (CallsV.startCall s tgt t mr off).1.incomingCall = s.incomingCall ∧
      (CallsV.startCall s tgt t mr off).2 =
        [CallsV.Broadcast.callOffer
          { fromUser := u, toUser := some tgt, offer := some off,
            answer := none, candidate := none, type := some t }]) := by
  constructor
  · intro h
    cases hu : s.user with
    | none => simp [CallsV.startCall, hu]
    | some u => simp [CallsV.startCall, hu, h]
  · rintro u stream hu hcip rfl
    simp [CallsV.startCall, hu, hcip, CallsV.getMedia]

/-- C1 (witness): both branches of the amended claim at concrete inputs. -/
theorem C1_amended_witness :
    CallsV.startCall outgoingRinging carol CallType.audio (some micStream) offerX
        = (outgoingRinging, []) ∧
    (CallsV.startCall ringingIncoming bob CallType.audio (some micStream) offerX).1.incomingCall
        = ringingIncoming.incomingCall :=
  ⟨(C1_amended outgoingRinging carol CallType.audio (some micStream) offerX).1 rfl,
   ((C1_amended ringingIncoming bob CallType.audio (some micStream) offerX).2
      alice micStream rfl rfl rfl).2.1⟩

/-- C2 (counterexample): Alice already has the incoming call from Carol
pending; the inbound offer from Bob is ignored with an empty outbox — no
hangup is sent back to Bob — refuting the claim that a busy offer is never
silently dropped. -/
theorem C2_counterexample :
    CallsV.onCallOffer ringingIncoming offerFromBob = (ringingIncoming, []) := by
  decide

/-- C2 (amended): an inbound offer received while a call is in progress or
an incoming call is already pending leaves the state unchanged and is never
queued, in both variants; but only the Auth.tsx PeerJS variant replies — it
closes the connection of the rejected offer — while the Calls.tsx variant
drops the busy offer silently, sending nothing back. -/
theorem C2_amended (s : CallsV.State) (p : CallPayload)
    (sa : AuthV.State) (c : AuthV.MediaConnection)
    (hbusy : s.callInProgress.isSome = true ∨ s.incomingCall.isSome = true)
    (hau : sa.user.isSome = true)
    (habusy : sa.callInProgress.isSome = true ∨ sa.incomingCall.isSome = true) :
    CallsV.onCallOffer s p = (s, []) ∧
    AuthV.onPeerCall sa c = (sa, [AuthV.PeerEffect.callClosed c]) := by
  constructor
  · cases hc : s.callInProgress with
    | some cip =>
        cases hu : s.user with
        | none => simp [CallsV.onCallOffer, hu]
        | some u => simp [CallsV.onCallOffer, hu, hc]
    | none =>
        cases hi : s.incomingCall with
        | none => rw [hc, hi] at hbusy; simp at hbusy
        | some ic =>
            cases hu : s.user with
            | none => simp [CallsV.onCallOffer, hu]
            | some u => simp [CallsV.onCallOffer, hu, hc, hi]
  · cases hu : sa.user with
    | none => rw [hu] at hau; simp at hau
    | some u =>
        have hb : (sa.callInProgress.isSome || sa.incomingCall.isSome) = true := by
          rcases habusy with h | h <;> simp [h]
        simp [AuthV.onPeerCall, hu, hb]

/-- C2 (witness): the amended claim at concrete busy states. -/
theorem C2_amended_witness :
    CallsV.onCallOffer ringingIncoming offerFromBob = (ringingIncoming, []) ∧
    AuthV.onPeerCall authRingingIncoming connFromBob =
      (authRingingIncoming, [AuthV.PeerEffect.callClosed connFromBob]) :=
  C2_amended ringingIncoming offerFromBob authRingingIncoming connFromBob
    (Or.inr rfl) rfl (Or.inr rfl)

/-- C3 (counterexample): Alice is ringing Bob, so her connection has no
remote description yet. A candidate from Bob arrives, then the answer from
Bob is applied. The early candidate was handed to `addIceCandidate` at once
and rejected while no remote description existed (`failed`), and after the
remote description is set the applied list is still empty — the candidate
was dropped, not buffered and applied, refuting the round-trip claim. -/
theorem C3_counterexample :
    ((CallsV.onCallAnswer (CallsV.onIceCandidate outgoingRinging candFromBob)
        answerFromBob).pc.map RTCPeerConnection.applied = some []) ∧
    ((CallsV.onCallAnswer (CallsV.onIceCandidate outgoingRinging candFromBob)
        answerFromBob).pc.map RTCPeerConnection.failed = some [candX]) ∧
    ((CallsV.onCallAnswer (CallsV.onIceCandidate outgoingRinging candFromBob)
        answerFromBob).pc.map RTCPeerConnection.remoteDesc = some (some answerX)) := by
  decide

/-- C3 (amended): a candidate message addressed to this client while a call
is in progress is handed to `addIceCandidate` immediately on receipt,
whether or not the remote description has been set; the component keeps no
buffer — a candidate arriving before the remote description is rejected by
the platform into the failed list, and setting the remote description later
applies nothing retroactively. -/
theorem C3_amended (s : CallsV.State) (p : CallPayload) (u tgt : Profile)
    (c : IceCandidate)
    (hu : s.user = some u) (hcip : s.callInProgress.isSome = true)
    (ht : p.toUser = some tgt) (hid : tgt.id = u.id) (hc : p.candidate = some c) :
    CallsV.onIceCandidate s p =
      { s with pc := s.pc.map (fun pc => pc.addIceCandidate c) } ∧
    (∀ pc : RTCPeerConnection, pc.remoteDesc = none →
      (pc.addIceCandidate c).failed = pc.failed ++ [c] ∧
      (pc.addIceCandidate c).applied = pc.applied) ∧
    (∀ (pc : RTCPeerConnection) (d : SessionDesc),
      (pc.setRemoteDescription d).applied = pc.applied ∧
      (pc.setRemoteDescription d).failed = pc.failed) := by
  obtain ⟨cip, hcip2⟩ := Option.isSome_iff_exists.mp hcip
  refine ⟨?_, ?_, ?_⟩
  · simp [CallsV.onIceCandidate, hu, hcip2, ht, hc, hid]
  · intro pc h
    simp [RTCPeerConnection.addIceCandidate, h]
  · intro pc d
    simp [RTCPeerConnection.setRemoteDescription]

/-- C3 (witness): the amended claim at the concrete early candidate. -/
theorem C3_amended_witness :
    (CallsV.onIceCandidate outgoingRinging candFromBob).pc.map
      RTCPeerConnection.failed = some [candX] := by
  rw [(C3_amended outgoingRinging candFromBob alice alice candX rfl rfl rfl rfl rfl).1]
  decide

/-- C4 (counterexample): Alice is ringing Bob, but the answer from Carol —
a sender who does not match the expected peer — is still applied as the
remote description, changing the connection state, refuting the claim that
an answer from any other sender leaves everything unchanged. -/
theorem C4_counterexample :
    CallsV.onCallAnswer outgoingRinging answerFromCarol ≠ outgoingRinging ∧
    (CallsV.onCallAnswer outgoingRinging answerFromCarol).pc.map
      RTCPeerConnection.remoteDesc = some (some answerX) := by
  decide

/-- C4 (amended): an inbound answer is applied as the remote description
whenever it is addressed to this client, a call is in progress and the
local side is the caller — the sender of the answer is never compared with
the expected peer, and the check does not distinguish outgoing-ringing from
active; when the local side is not the caller the message changes
nothing. -/
theorem C4_amended (s : CallsV.State) (p : CallPayload) (u tgt : Profile)
    (cip : CallInProgress) (d : SessionDesc)
    (hu : s.user = some u) (hcip : s.callInProgress = some cip) :
    (p.toUser = some tgt → tgt.id = u.id → cip.isCaller = true → p.answer = some d →
      CallsV.onCallAnswer s p =
        { s with pc := s.pc.map (fun pc => pc.setRemoteDescription d) }) ∧
    (cip.isCaller = false → CallsV.onCallAnswer s p = s) := by
  constructor
  · intro ht hid hcaller ha
    simp [CallsV.onCallAnswer, hu, hcip, ht, hid, hcaller, ha]
  · intro hcaller
    cases htu : p.toUser with
    | none => simp [CallsV.onCallAnswer, hu, hcip, htu]
    | some tgt2 => simp [CallsV.onCallAnswer, hu, hcip, htu, hcaller]

/-- C4 (witness): the amended claim applied to the mismatched-sender
answer. -/
theorem C4_amended_witness :
    CallsV.onCallAnswer outgoingRinging answerFromCarol =
      { outgoingRinging with
          pc := outgoingRinging.pc.map (fun pc => pc.setRemoteDescription answerX) } :=
  (C4_amended outgoingRinging answerFromCarol alice alice cipBob answerX
    rfl rfl).1 rfl rfl rfl rfl

/-- C5 (counterexample): in the Calls.tsx variant, `startCall` with a failed
media acquisition aborts: the state is unchanged and no offer is broadcast,
refuting the claim that the outgoing call still proceeds. -/
theorem C5_counterexample :
    CallsV.startCall idleAlice bob CallType.audio none offerX = (idleAlice, []) := by
  decide

/-- C5 (amended): the two variants diverge. In the Auth.tsx PeerJS variant
the claim holds: on a failed acquisition `startCall` still proceeds — the
session is recorded as the outgoing call, the PeerJS call is placed with a
null stream, and `mediaError` reflects the failure. In the Calls.tsx
variant `startCall` aborts on a failed acquisition: no offer is sent and no
session is created. -/
theorem C5_amended (sc : CallsV.State) (tgt : Profile) (t : CallType)
    (off : SessionDesc) (sa : AuthV.State) (u : Profile)
    (e : AuthV.MediaErrorKind) (cid : Nat)
    (hu : sa.user = some u) (hcip : sa.callInProgress = none)
    (hp : sa.peerOpen = true) :
    CallsV.startCall sc tgt t none off = (sc, []) ∧
    (AuthV.startCall sa tgt t (Sum.inr e) cid).1.callInProgress =
      some ({ withUser := tgt, type := t, isCaller := true }) ∧
    (AuthV.startCall sa tgt t (Sum.inr e) cid).1.mediaError =
      some (AuthV.mediaErrorMessage t e) ∧
    (AuthV.startCall sa tgt t (Sum.inr e) cid).2 =
      [AuthV.PeerEffect.callPlaced tgt.id none u t] := by
  refine ⟨?_, ?_⟩
  · cases hscu : sc.user with
    | none => simp [CallsV.startCall, hscu]
    | some u2 =>
        cases hsc : sc.callInProgress with
        | some cip2 => simp [CallsV.startCall, hscu, hsc]
        | none => simp [CallsV.startCall, hscu, hsc, CallsV.getMedia]
  · simp [AuthV.startCall, AuthV.getMedia, hu, hcip, hp]

/-- C5 (witness): the amended claim at concrete inputs, with the permission
denial on an audio call. -/
theorem C5_amended_witness :
    CallsV.startCall idleAlice bob CallType.audio none offerX = (idleAlice, []) ∧
    (AuthV.startCall authIdle bob CallType.audio
        (Sum.inr AuthV.MediaErrorKind.notAllowed) 7).1.mediaError =
      some "Microphone access denied." :=
  ⟨(C5_amended idleAlice bob CallType.audio offerX authIdle alice
      AuthV.MediaErrorKind.notAllowed 7 rfl rfl rfl).1,
   (C5_amended idleAlice bob CallType.audio offerX authIdle alice
      AuthV.MediaErrorKind.notAllowed 7 rfl rfl rfl).2.2.1⟩

/-- C6 (code bug, evaluation at the failing input): Alice has the incoming
call from Carol ringing and `answerCall` runs with a totally failed media
acquisition. The source comment says this path denies the call by reusing
the hang-up logic, and a deny must notify the caller — `denyCall` on the
same state broadcasts exactly that hang-up to Carol (second conjunct). But
`handleHangUp(true)` only broadcasts when `callInProgress` is set, which it
is not yet while answering: the state returns to Idle with an EMPTY outbox,
so Carol is never notified and keeps ringing. -/
theorem C6_code_bug_eval :
    CallsV.answerCall ringingIncoming none answerX = (idleAlice, []) ∧
    (CallsV.denyCall ringingIncoming).2 =
      [CallsV.Broadcast.hangUp
        { fromUser := alice, toUser := some carol, offer := none,
          answer := none, candidate := none, type := none }] := by
  decide

/-- C7 (counterexample): in the Calls.tsx variant, with a local stream
holding no audio track, `toggleMute` still flips `isMuted` from false to
true — and this variant has no error state at all — refuting the claim
that the muted flag is left unchanged with an error condition set. -/
theorem C7_counterexample :
    noAudioInCall.localStream.map MediaStream.getAudioTracks = some [] ∧
    noAudioInCall.isMuted = false ∧
    (CallsV.toggleMute noAudioInCall).isMuted = true := by
  decide

/-- C7 (amended): the two variants diverge. In the Auth.tsx variant the
claim holds: with no audio track `toggleMute` sets the error banner and
leaves `isMuted` and the stream untouched; with audio tracks it flips every
audio track and flips `isMuted`. In the Calls.tsx variant `toggleMute`
unconditionally flips `isMuted`, even when no audio track exists, and sets
no error condition. -/
theorem C7_amended (sa : AuthV.State) (sc : CallsV.State) :
    ((sa.localStream.map MediaStream.getAudioTracks).getD [] = [] →
      (AuthV.toggleMute sa).isMuted = sa.isMuted ∧
      (AuthV.toggleMute sa).localStream = sa.localStream ∧
      (AuthV.toggleMute sa).mediaError = some "No microphone track available.") ∧
    ((sa.localStream.map MediaStream.getAudioTracks).getD [] ≠ [] →
      (AuthV.toggleMute sa).isMuted = !sa.isMuted ∧
      (AuthV.toggleMute sa).localStream =
        sa.localStream.map (fun st => toggleTracks st TrackKind.audio) ∧
      (AuthV.toggleMute sa).mediaError = sa.mediaError) ∧
    (CallsV.toggleMute sc).isMuted = !sc.isMuted := by
  refine ⟨?_, ?_, ?_⟩
  · intro h
    simp [AuthV.toggleMute, h]
  · intro h
    have hlen : 0 < ((sa.localStream.map MediaStream.getAudioTracks).getD []).length :=
      List.length_pos.mpr h
    simp only [AuthV.toggleMute]
    rw [if_pos hlen]
    exact ⟨rfl, rfl, rfl⟩
  · simp [CallsV.toggleMute]

/-- C7 (witness): both Auth.tsx branches and the Calls.tsx behaviour at
concrete inputs. -/
theorem C7_amended_witness :
    (AuthV.toggleMute authNoAudio).isMuted = authNoAudio.isMuted ∧
    (AuthV.toggleMute authWithAudio).isMuted = !authWithAudio.isMuted ∧
    (CallsV.toggleMute noAudioInCall).isMuted = !noAudioInCall.isMuted :=
  ⟨((C7_amended authNoAudio noAudioInCall).1 (by decide)).1,
   ((C7_amended authWithAudio noAudioInCall).2.1 (by decide)).1,
   (C7_amended authWithAudio noAudioInCall).2.2⟩

/-- C8 (confirmed): a `hang-up` message whose sender matches neither the
in-progress peer nor the pending incoming caller changes nothing: the state
after the handler is the state before, and nothing is broadcast. -/
theorem C8_hangup_mismatch_noop (s : CallsV.State) (p : CallPayload)
    (h1 : s.callInProgress.map (fun cip => cip.withUser.id) ≠ some p.fromUser.id)
    (h2 : s.incomingCall.map (fun ic => ic.fromUser.id) ≠ some p.fromUser.id) :
    CallsV.onHangUp s p = (s, []) := by
  obtain ⟨su, sic, scip, sls, srs, sm, sc, spc⟩ := s
  cases su with
  | none => rfl
  | some u =>
    cases scip with
    | none =>
      cases sic with
      | none => rfl
      | some ic =>
        simp only [Option.map_some'] at h2
        have hne : ¬ (p.fromUser.id = ic.fromUser.id) := fun he => h2 (by rw [he])
        simp [CallsV.onHangUp, hne]
    | some cip =>
      simp only [Option.map_some'] at h1
      have hne1 : ¬ (p.fromUser.id = cip.withUser.id) := fun he => h1 (by rw [he])
      cases sic with
      | none => simp [CallsV.onHangUp, hne1]
      | some ic =>
        simp only [Option.map_some'] at h2
        have hne2 : ¬ (p.fromUser.id = ic.fromUser.id) := fun he => h2 (by rw [he])
        simp [CallsV.onHangUp, hne1, hne2]

/-- C8 (witness): Alice is in a call with Bob while the offer from Carol is
pending; the hang-up from Dave matches neither and is a no-op. -/
theorem C8_hangup_mismatch_noop_witness :
    CallsV.onHangUp busyBoth hangupFromDave = (busyBoth, []) :=
  C8_hangup_mismatch_noop busyBoth hangupFromDave (by decide) (by decide)

/-- C9 (confirmed): denying a ringing incoming call broadcasts exactly one
hang-up, addressed to the sender of that call, and leaves the local media
state — local stream with its tracks, `isMuted`, `isCamOff` — and the
remote stream untouched; the Auth.tsx variant likewise emits exactly one
close on the pending connection and touches no media state. -/
theorem C9_deny_frame (s : CallsV.State) (ic : CallPayload) (u : Profile)
    (hic : s.incomingCall = some ic) (hu : s.user = some u) :
    (CallsV.denyCall s).2 =
      [CallsV.Broadcast.hangUp
        { fromUser := u, toUser := some ic.fromUser, offer := none,
          answer := none, candidate := none, type := none }] ∧
    (CallsV.denyCall s).1.localStream = s.localStream ∧
    (CallsV.denyCall s).1.isMuted = s.isMuted ∧
    (CallsV.denyCall s).1.isCamOff = s.isCamOff ∧
    (CallsV.denyCall s).1.remoteStream = s.remoteStream ∧
    (∀ (sa : AuthV.State) (ica : AuthV.IncomingCall), sa.incomingCall = some ica →
      (AuthV.denyCall sa).2 = [AuthV.PeerEffect.callClosed ica.peerCall] ∧
      (AuthV.denyCall sa).1.localStream = sa.localStream ∧
      (AuthV.denyCall sa).1.isMuted = sa.isMuted ∧
      (AuthV.denyCall sa).1.isCamOff = sa.isCamOff) := by
  refine ⟨?_, rfl, rfl, rfl, rfl, ?_⟩
  · simp [CallsV.denyCall, hic, hu]
  · intro sa ica h
    refine ⟨?_, rfl, rfl, rfl⟩
    simp [AuthV.denyCall, h]

/-- C9 (witness): denying the ringing call from Carol. -/
theorem C9_deny_frame_witness :
    (CallsV.denyCall ringingIncoming).2 =
      [CallsV.Broadcast.hangUp
        { fromUser := alice, toUser := some carol, offer := none,
          answer := none, candidate := none, type := none }] ∧
    (CallsV.denyCall ringingIncoming).1.localStream = ringingIncoming.localStream :=
  ⟨(C9_deny_frame ringingIncoming offerFromCarol alice rfl rfl).1,
   (C9_deny_frame ringingIncoming offerFromCarol alice rfl rfl).2.1⟩

/-- C10 (counterexample): from Idle, one `toggleMute` (which this variant
accepts even with no stream) yields a state with no call session and no
incoming call but `isMuted = true`; `hangUp` in that state resets `isMuted`
to false — observable state changes — refuting the claim that `hangUp` with
no session is a no-op on every observable field. -/
theorem C10_counterexample :
    (CallsV.toggleMute idleAlice).callInProgress = none ∧
    (CallsV.toggleMute idleAlice).incomingCall = none ∧
    (CallsV.toggleMute idleAlice).isMuted = true ∧
    (CallsV.handleHangUp (CallsV.toggleMute idleAlice) true).1.isMuted = false := by
  decide

/-- C10 (amended): with no call session and no incoming call, `answerCall`
and `denyCall` are strict no-ops that broadcast nothing; `hangUp` also
broadcasts nothing, but unconditionally resets the stream references, the
peer connection and the `isMuted`/`isCamOff` flags to their defaults, so it
leaves the state unchanged only when those already hold their default
values. -/
theorem C10_amended (s : CallsV.State) (mr : Option MediaStream)
    (d : SessionDesc) (b : Bool)
    (hcip : s.callInProgress = none) (hic : s.incomingCall = none) :
    CallsV.answerCall s mr d = (s, []) ∧
    CallsV.denyCall s = (s, []) ∧
    (CallsV.handleHangUp s b).2 = [] ∧
    (CallsV.handleHangUp s b).1 =
      { s with pc := none, localStream := none, remoteStream := none,
               isMuted := false, isCamOff := false } := by
  obtain ⟨su, sic, scip, sls, srs, sm, sc, spc⟩ := s
  simp only [] at hcip hic
  subst hcip
  subst hic
  exact ⟨rfl, rfl, rfl, rfl⟩

/-- C10 (witness): the amended claim at the idle state. -/
theorem C10_amended_witness :
    CallsV.answerCall idleAlice none answerX = (idleAlice, []) ∧
    CallsV.denyCall idleAlice = (idleAlice, []) :=
  ⟨(C10_amended idleAlice none answerX true rfl rfl).1,
   (C10_amended idleAlice none answerX true rfl rfl).2.1⟩
